import Mathlib

/-!
Verification of the suborgs-demo CMS access-control core.

The definitions below are a shallow embedding of the backend request
handlers shown in src/GUIDE.md (FastAPI + SlashID demo) and of the
frontend route guard in src/frontend/src/components/groups.tsx.

Modelling conventions:
* Python strings are Lean `String`s; where the code splits on a
  character we work on the underlying `List Char` with `pySplit`, a
  direct model of Python's `str.split` for a one-character separator.
* Python `Set[Permission]` is `Finset Permission`.
* The external identity platform's state is modelled as the membership
  map `members : orgId → personId → Option (Finset Permission)`:
  `none` means the person is not a member of that organization,
  `some g` means they are a member with group set `g`.  The platform
  calls `persons_put` (insert/update with exact groups) and
  `persons_person_id_delete` (remove from org) become updates of that
  map; `persons_person_id_groups_get` becomes a lookup (empty set for a
  non-member, mirroring `get_permissions` returning `set()` when either
  id is missing).
* FastAPI's `raise HTTPException` aborts a handler before any module
  state is touched, so every handler is a function returning the error
  (if any) together with the resulting state; the error branches return
  the state unchanged, exactly as the Python does.
* Dependency resolution order follows FastAPI: `require_user_id` fires
  before `require_page_id`, which fires before the permission check.
-/

/-- The permission groups of the demo, from `class Permission(Enum)`
in src/GUIDE.md (`read` / `write` / `admin`). -/
inductive Permission
  | Read
  | Write
  | Admin
  deriving DecidableEq, BEq

/-- A page record, from `class Page(BaseModel)` in src/GUIDE.md:
`public : bool`, `contents : str`. -/
structure Page where
  public : Bool
  contents : String
  deriving DecidableEq

/-- The HTTP error outcomes the handlers raise (401, 403, 404, 409, 501). -/
inductive HErr
  | Unauthenticated
  | Forbidden
  | NotFound
  | Conflict
  | NotImplemented
  deriving DecidableEq

/-- The permission gate's verdict. -/
inductive Access
  | Allowed
  | Denied
  deriving DecidableEq

/-- Python's `s.split(sep)` for a one-character separator: `""` splits
to `[""]`, and every occurrence of the separator starts a new chunk,
so `"a//b"` splits to `["a", "", "b"]`. -/
def pySplit (sep : Char) : List Char → List (List Char)
  | [] => [[]]
  | c :: cs =>
    if c = sep then
      [] :: pySplit sep cs
    else
      (c :: (pySplit sep cs).headD []) :: (pySplit sep cs).tail

/-- Python's `sep.join(xs)`: `join [] = ""`, `join [x] = x`,
`join (x :: xs) = x ++ sep ++ join xs`. -/
def pyJoin (sep : String) : List String → String
  | [] => ""
  | [x] => x
  | x :: y :: xs => x ++ sep ++ pyJoin sep (y :: xs)

/-- The path elements of a raw path, on the character-list level:
split on the slash and keep only the non-empty chunks.  This is the
body of `get_page_path` in src/GUIDE.md:
`[x for x in page_path.split("/") if x]`. -/
def pathElems (cs : List Char) : List (List Char) :=
  (pySplit '/' cs).filter (fun l => !l.isEmpty)

/-- `get_page_path` from src/GUIDE.md: the page path elements of a raw
path string, ignoring extra slashes. -/
def get_page_path (s : String) : List String :=
  (pathElems s.data).map String.mk

/-- The organization name of a page path, as built by `get_page_id`
and `post_page` in src/GUIDE.md:
`"/".join([slashid.ROOT_ORG_NAME] + page_path)`. -/
def org_name_of (rootOrgName : String) (path : List String) : String :=
  pyJoin "/" (rootOrgName :: path)

/-- The spec's stated formula for the organization key:
`rootName + "/" + join(identity.segments, "/")`.  Kept separate from
`org_name_of` (the code's construction) so the two can be compared. -/
def toOrganizationKey_spec (rootName : String) (segments : List String) : String :=
  rootName ++ "/" ++ pyJoin "/" segments

/-- The backend state: the root organization's name and id, the
platform's org-name → org-id table (`get_org_id`), the platform's
membership map (org id → person id → groups, `none` for a non-member),
and the in-memory pages store
(`pages = defaultdict(lambda: Page(public=False, contents="default content"))`,
modelled as the total function its lookups observe). -/
structure Backend where
  rootOrgName : String
  rootOrgId : String
  orgIds : String → Option String
  members : String → String → Option (Finset Permission)
  pages : String → Page

/-- `get_page_id` from src/GUIDE.md: the PageID (SlashID org id) of a
page path, `none` if the organization does not exist. -/
def get_page_id (b : Backend) (path : List String) : Option String :=
  b.orgIds (org_name_of b.rootOrgName path)

/-- `get_permissions` from src/GUIDE.md: the empty set when either the
user or the page is missing, otherwise the caller's groups in the
page's organization (empty for a non-member). -/
def get_permissions (b : Backend) (user_id : Option String) (page_id : Option String) :
    Finset Permission :=
  match user_id, page_id with
  | some uid, some pid => (b.members pid uid).getD ∅
  | _, _ => ∅

/-- The membership test of `require_permissions` in src/GUIDE.md: the
wrapped dependency raises 403 unless every required permission is in
the caller's actual set. -/
def require_permissions_check (required : List Permission) (actual : Finset Permission) :
    Access :=
  if required.all (fun p => decide (p ∈ actual)) then Access.Allowed else Access.Denied

/-- The access decision the handlers implement for each required
permission: `get_page` serves a public page unconditionally and
otherwise demands `read`; `put_page` always demands `write`
(`Depends(require_permissions(Permission.Write))`); the admin-gated
endpoints (`delete_page`, `get_page_settings`, `patch_page_settings`)
always demand `admin`.  The public override exists only on the read
path. -/
def checkAccess (record : Page) (callerPermissions : Finset Permission)
    (required : Permission) : Access :=
  match required with
  | Permission.Read =>
    if record.public then Access.Allowed
    else require_permissions_check [Permission.Read] callerPermissions
  | Permission.Write => require_permissions_check [Permission.Write] callerPermissions
  | Permission.Admin => require_permissions_check [Permission.Admin] callerPermissions

/-- `set_user_permissions` from src/GUIDE.md: for a non-root page an
empty permission set deletes the person from the organization
(`persons_person_id_delete`); otherwise `persons_put` inserts/updates
the person with exactly the given groups. -/
def set_user_permissions (rootOrgId : String) (user_id : String) (page_id : String)
    (permissions : Finset Permission)
    (members : String → String → Option (Finset Permission)) :
    String → String → Option (Finset Permission) :=
  if page_id ≠ rootOrgId ∧ permissions = ∅ then
    fun p u => if p = page_id ∧ u = user_id then none else members p u
  else
    fun p u => if p = page_id ∧ u = user_id then some permissions else members p u

/-- `get_page` from src/GUIDE.md.  Dependencies: `get_user_id` (may be
`none`, no error) and `require_page_id` (404).  Body: serve a public
page unconditionally, otherwise run
`require_permissions(Permission.Read)(person_id, page_id)`, which
raises 401 for an absent user and 403 for a missing permission. -/
def get_page (b : Backend) (user : Option String) (rawPath : String) :
    Except HErr String :=
  match get_page_id b (get_page_path rawPath) with
  | none => Except.error HErr.NotFound
  | some pid =>
    if (b.pages pid).public then
      Except.ok (b.pages pid).contents
    else
      match user with
      | none => Except.error HErr.Unauthenticated
      | some uid =>
        if Permission.Read ∈ get_permissions b (some uid) (some pid) then
          Except.ok (b.pages pid).contents
        else
          Except.error HErr.Forbidden

/-- `put_page` from src/GUIDE.md.  Guarded by
`Depends(require_permissions(Permission.Write))`: 401 for an absent
user, 404 for a missing page, 403 without `write`; on success the
page's contents are overwritten. -/
def put_page (b : Backend) (user : Option String) (rawPath : String) (body : String) :
    Option HErr × Backend :=
  match user with
  | none => (some HErr.Unauthenticated, b)
  | some uid =>
    match get_page_id b (get_page_path rawPath) with
    | none => (some HErr.NotFound, b)
    | some pid =>
      if Permission.Write ∈ get_permissions b (some uid) (some pid) then
        (none, { b with
          pages := fun p =>
            if p = pid then { b.pages p with contents := body } else b.pages p })
      else
        (some HErr.Forbidden, b)

/-- `delete_page` from src/GUIDE.md.  Guarded by
`Depends(require_permissions(Permission.Admin))`; the body
unconditionally raises 501, as SlashID has no suborg deletion API. -/
def delete_page (b : Backend) (user : Option String) (rawPath : String) :
    Option HErr × Backend :=
  match user with
  | none => (some HErr.Unauthenticated, b)
  | some uid =>
    match get_page_id b (get_page_path rawPath) with
    | none => (some HErr.NotFound, b)
    | some pid =>
      if Permission.Admin ∈ get_permissions b (some uid) (some pid) then
        (some HErr.NotImplemented, b)
      else
        (some HErr.Forbidden, b)

/-- `post_page` from src/GUIDE.md.  In order: `require_user_id` (401);
409 if the page already exists; the parent path is the path without
its last element, `require_page_id` on it (404);
`require_permissions(Permission.Admin)` on the parent (403, and it
returns the caller's full parent permission set); the suborg is
created (the org-name table gains the new page's name); the caller is
added to the new page with its parent permissions via
`set_user_permissions`; finally
`pages[page_id] = Page(public=pages[parent_page_id].public, contents=body)`.
`newId` stands for the organization id the platform mints for the new
suborg. -/
def post_page (b : Backend) (user : Option String) (rawPath : String)
    (body : String) (newId : String) : Option HErr × Backend :=
  match user with
  | none => (some HErr.Unauthenticated, b)
  | some uid =>
    match get_page_id b (get_page_path rawPath) with
    | some _ => (some HErr.Conflict, b)
    | none =>
      match get_page_id b (get_page_path rawPath).dropLast with
      | none => (some HErr.NotFound, b)
      | some parentId =>
        if Permission.Admin ∈ get_permissions b (some uid) (some parentId) then
          (none, { b with
            orgIds := fun n =>
              if n = org_name_of b.rootOrgName (get_page_path rawPath) then some newId
              else b.orgIds n,
            members := set_user_permissions b.rootOrgId uid newId
              (get_permissions b (some uid) (some parentId)) b.members,
            pages := fun p =>
              if p = newId then
                { public := (b.pages parentId).public, contents := body }
              else b.pages p })
        else
          (some HErr.Forbidden, b)

/-- The `PATCH /admin` request body, from `class PageSettingsPatch` in
src/GUIDE.md: an optional `public` flag and an optional list of
per-user permission patches (a user entry with `none` permissions is
skipped by the handler). -/
structure PageSettingsPatch where
  publicFlag : Option Bool
  users : Option (List (String × Option (Finset Permission)))

/-- The per-user loop of `patch_page_settings`: apply
`set_user_permissions` for every entry whose permission set is not
`None`.  The Python gathers these concurrently; each entry touches
only its own (page, user) cell, so the fold is their joint effect. -/
def apply_user_patches (rootOrgId : String) (page_id : String)
    (users : List (String × Option (Finset Permission)))
    (members : String → String → Option (Finset Permission)) :
    String → String → Option (Finset Permission) :=
  users.foldl
    (fun m up =>
      match up.2 with
      | some ps => set_user_permissions rootOrgId up.1 page_id ps m
      | none => m)
    members

/-- `patch_page_settings` from src/GUIDE.md.  Guarded by
`Depends(require_permissions(Permission.Admin))`; then the `public`
flag is overwritten if given, and every listed user with a non-null
permission set is pushed through `set_user_permissions`. -/
def patch_page_settings (b : Backend) (user : Option String) (rawPath : String)
    (updates : PageSettingsPatch) : Option HErr × Backend :=
  match user with
  | none => (some HErr.Unauthenticated, b)
  | some uid =>
    match get_page_id b (get_page_path rawPath) with
    | none => (some HErr.NotFound, b)
    | some pid =>
      if Permission.Admin ∈ get_permissions b (some uid) (some pid) then
        (none, { b with
          pages :=
            match updates.publicFlag with
            | some pub => fun p =>
                if p = pid then { b.pages p with public := pub } else b.pages p
            | none => b.pages,
          members :=
            match updates.users with
            | some us => apply_user_patches b.rootOrgId pid us b.members
            | none => b.members })
      else
        (some HErr.Forbidden, b)

/-- The render outcomes of the frontend `AssertGroups` component. -/
inductive Rendered
  | loading
  | oops
  | fallback
  | children
  deriving DecidableEq

/-- The admin page info the frontend fetches, from
`AdminPageInfo` in src/frontend/src/types.ts: the `public` flag and
the per-user permission lists. -/
structure AdminPageInfo where
  publicFlag : Bool
  users : List (String × List Permission)

/-- The `AssertGroups` component of
src/frontend/src/components/groups.tsx, as a function of its hook
results: loading and error states first, then `if (data?.public)
return children;`, then the `belongsTo` loop returning the fallback at
the first permission missing from `raw`. -/
def AssertGroups (belongsTo : List Permission) (raw : List Permission)
    (isGroupsLoading : Bool) (isGroupsError : Bool)
    (data : Option AdminPageInfo)
    (isAdminPageInfoLoading : Bool) (isAdminPageInfoError : Bool) : Rendered :=
  if isGroupsLoading || isAdminPageInfoLoading then Rendered.loading
  else if isGroupsError || isAdminPageInfoError then Rendered.oops
  else if (match data with | some i => i.publicFlag | none => false) then
    Rendered.children
  else if belongsTo.all (fun p => raw.contains p) then Rendered.children
  else Rendered.fallback

/-- A small concrete backend used to instantiate theorems with
hypotheses: root org "MyOrg" (id "rootid"), a non-public page "/foo"
(id "fooid") on which "alice" holds admin, and a public page "/pub"
(id "pubid"). -/
def sampleBackend : Backend where
  rootOrgName := "MyOrg"
  rootOrgId := "rootid"
  orgIds := fun n =>
    if n = "MyOrg" then some "rootid"
    else if n = "MyOrg/foo" then some "fooid"
    else if n = "MyOrg/pub" then some "pubid"
    else none
  members := fun p u =>
    if p = "fooid" ∧ u = "alice" then some {Permission.Admin}
    else if p = "rootid" ∧ u = "alice" then some {Permission.Admin}
    else none
  pages := fun p =>
    if p = "pubid" then { public := true, contents := "hello" }
    else { public := false, contents := "default content" }

/-- Claim C1: for a page record with `public = true`, `checkAccess`
with required permission `read` is `Allowed` for every caller
permission set (the empty set included), while a required permission
of `write` is `Allowed` exactly when `write` is a member of the
caller's set — the public override applies only to `read`. -/
theorem checkAccess_public_read_only (contents : String) (S : Finset Permission) :
    checkAccess { public := true, contents := contents } S Permission.Read = Access.Allowed ∧
    (checkAccess { public := true, contents := contents } S Permission.Write = Access.Allowed ↔
      Permission.Write ∈ S) := by
  constructor
  · simp [checkAccess]
  · by_cases h : Permission.Write ∈ S <;>
      simp [checkAccess, require_permissions_check, h]

/-- Claim C2: for a page record with `public = false`, `checkAccess`
returns `Allowed` exactly when the required permission is a member of
the caller's set; permissions are independent flags, so a caller with
only `admin` (or only `read`) is denied a `write`. -/
theorem checkAccess_nonpublic_membership (contents : String) (S : Finset Permission) :
    (∀ p : Permission,
      checkAccess { public := false, contents := contents } S p = Access.Allowed ↔ p ∈ S) ∧
    checkAccess { public := false, contents := contents } {Permission.Admin}
      Permission.Write = Access.Denied ∧
    checkAccess { public := false, contents := contents } {Permission.Read}
      Permission.Write = Access.Denied ∧
    checkAccess { public := false, contents := contents } {Permission.Write, Permission.Read}
      Permission.Write = Access.Allowed := by
  have key : ∀ p : Permission, require_permissions_check [p] S = Access.Allowed ↔ p ∈ S := by
    intro p
    by_cases h : p ∈ S <;> simp [require_permissions_check, h]
  refine ⟨fun p => ?_, by simp [checkAccess, require_permissions_check],
    by simp [checkAccess, require_permissions_check],
    by simp [checkAccess, require_permissions_check]⟩
  cases p <;> simpa [checkAccess] using key _

/-- Claim C10: in the frontend route guard, once the hooks have
resolved, `AssertGroups` renders the guarded children whenever the
page's admin info reports `public = true`, for every required
permission list `belongsTo` (lists containing `write` or `admin`
included) and regardless of the caller's own groups `raw`. -/
theorem AssertGroups_public_bypass (belongsTo raw : List Permission)
    (users : List (String × List Permission)) :
    AssertGroups belongsTo raw false false (some { publicFlag := true, users := users })
      false false = Rendered.children := by
  simp [AssertGroups]

/-- Claim C4: `post_page` on a page identity whose organization
already exists returns 409 Conflict and leaves the whole backend
state — in particular the existing record's content — unchanged. -/
theorem post_page_conflict (b : Backend) (caller rawPath body newId pid : String)
    (hexists : get_page_id b (get_page_path rawPath) = some pid) :
    post_page b (some caller) rawPath body newId = (some HErr.Conflict, b) := by
  simp [post_page, hexists]

/-- Witness for C4 at a concrete input: creating "/foo", which already
exists in `sampleBackend`, yields Conflict with the state untouched. -/
theorem post_page_conflict_witness :
    post_page sampleBackend (some "alice") "/foo" "body" "newid" =
      (some HErr.Conflict, sampleBackend) :=
  post_page_conflict sampleBackend "alice" "/foo" "body" "newid" "fooid" (by decide)

/-- Claim C5: a successful `post_page` stores, under the new page's
organization id, a record whose `public` flag equals the parent
record's `public` flag at creation time and whose contents equal the
request body. -/
theorem post_page_inherits_parent_public (b : Backend)
    (caller rawPath body newId parentId : String)
    (hnew : get_page_id b (get_page_path rawPath) = none)
    (hparent : get_page_id b (get_page_path rawPath).dropLast = some parentId)
    (hadmin : Permission.Admin ∈ get_permissions b (some caller) (some parentId)) :
    (post_page b (some caller) rawPath body newId).1 = none ∧
    (post_page b (some caller) rawPath body newId).2.pages newId =
      { public := (b.pages parentId).public, contents := body } := by
  simp [post_page, hnew, hparent, hadmin]

/-- Witness for C5 at a concrete input: creating "/foo/baz" under the
non-public parent "/foo" of `sampleBackend` succeeds and stores a
record with the parent's `public` flag and the request body. -/
theorem post_page_inherits_parent_public_witness :
    (post_page sampleBackend (some "alice") "/foo/baz" "body" "newid").1 = none ∧
    (post_page sampleBackend (some "alice") "/foo/baz" "body" "newid").2.pages "newid" =
      { public := (sampleBackend.pages "fooid").public, contents := "body" } :=
  post_page_inherits_parent_public sampleBackend "alice" "/foo/baz" "body" "newid" "fooid"
    (by decide) (by decide) (by decide)

/-- Claim C9: `delete_page` never mutates the backend state, never
reports success, and — whenever its permission guards pass — fails
with 501 NotImplemented. -/
theorem delete_page_not_implemented (b : Backend) (user : Option String) (rawPath : String) :
    (delete_page b user rawPath).2 = b ∧
    (delete_page b user rawPath).1 ≠ none ∧
    (∀ uid pid, user = some uid →
      get_page_id b (get_page_path rawPath) = some pid →
      Permission.Admin ∈ get_permissions b (some uid) (some pid) →
      (delete_page b user rawPath).1 = some HErr.NotImplemented) := by
  refine ⟨?_, ?_, ?_⟩
  · rcases user with _ | uid
    · rfl
    · rcases h : get_page_id b (get_page_path rawPath) with _ | pid
      · simp [delete_page, h]
      · by_cases ha : Permission.Admin ∈ get_permissions b (some uid) (some pid) <;>
          simp [delete_page, h, ha]
  · rcases user with _ | uid
    · simp [delete_page]
    · rcases h : get_page_id b (get_page_path rawPath) with _ | pid
      · simp [delete_page, h]
      · by_cases ha : Permission.Admin ∈ get_permissions b (some uid) (some pid) <;>
          simp [delete_page, h, ha]
  · intro uid pid huser hpid hadmin
    subst huser
    simp [delete_page, hpid, hadmin]

/-- Witness for C9 at a concrete input: an admin deleting "/foo" in
`sampleBackend` receives NotImplemented and the state is unchanged. -/
theorem delete_page_not_implemented_witness :
    (delete_page sampleBackend (some "alice") "/foo").1 = some HErr.NotImplemented ∧
    (delete_page sampleBackend (some "alice") "/foo").2 = sampleBackend :=
  ⟨(delete_page_not_implemented sampleBackend (some "alice") "/foo").2.2 "alice" "fooid"
      rfl (by decide) (by decide),
    (delete_page_not_implemented sampleBackend (some "alice") "/foo").1⟩

/-- Claim C3: patching a page's settings with a user entry whose
permission set is empty removes that user from the platform's
membership of the page's organization when the page is not the root
page; on the root page the same patch leaves the user a member, with
zero groups set instead of deletion. -/
theorem patch_empty_permissions_membership (b : Backend)
    (caller target pid rawPath : String)
    (hpage : get_page_id b (get_page_path rawPath) = some pid)
    (hadmin : Permission.Admin ∈ get_permissions b (some caller) (some pid)) :
    (patch_page_settings b (some caller) rawPath
        { publicFlag := none, users := some [(target, some ∅)] }).1 = none ∧
    (pid ≠ b.rootOrgId →
      (patch_page_settings b (some caller) rawPath
          { publicFlag := none, users := some [(target, some ∅)] }).2.members pid target =
        none) ∧
    (pid = b.rootOrgId →
      (patch_page_settings b (some caller) rawPath
          { publicFlag := none, users := some [(target, some ∅)] }).2.members pid target =
        some ∅) := by
  refine ⟨by simp [patch_page_settings, hpage, hadmin], fun hroot => ?_, fun hroot => ?_⟩
  · simp [patch_page_settings, hpage, hadmin, apply_user_patches,
      set_user_permissions, hroot]
  · subst hroot
    simp [patch_page_settings, hpage, hadmin, apply_user_patches,
      set_user_permissions]

/-- Witness for C3 at concrete inputs: in `sampleBackend`, patching
the non-root page "/foo" with `bob ↦ ∅` removes bob from its
organization, while the same patch on the root page leaves bob a
member with zero groups. -/
theorem patch_empty_permissions_membership_witness :
    (patch_page_settings sampleBackend (some "alice") "/foo"
        { publicFlag := none, users := some [("bob", some ∅)] }).2.members "fooid" "bob" =
      none ∧
    (patch_page_settings sampleBackend (some "alice") ""
        { publicFlag := none, users := some [("bob", some ∅)] }).2.members "rootid" "bob" =
      some ∅ :=
  ⟨(patch_empty_permissions_membership sampleBackend "alice" "bob" "fooid" "/foo"
      (by decide) (by decide)).2.1 (by decide),
    (patch_empty_permissions_membership sampleBackend "alice" "bob" "rootid" ""
      (by decide) (by decide)).2.2 rfl⟩

/-- Counterexample to claim C8 as stated: with no caller identity,
`get_page` on the public page "/pub" of `sampleBackend` succeeds with
the page contents instead of failing with Unauthenticated — the read
handler serves a public record without any authentication. -/
theorem get_page_public_anonymous_ok :
    get_page sampleBackend none "/pub" = Except.ok "hello" ∧
    (Except.ok "hello" : Except HErr String) ≠ Except.error HErr.Unauthenticated :=
  ⟨rfl, fun h => Except.noConfusion h⟩

/-- Claim C8 (amended): the operations that are unconditionally
guarded by the permission gate — `put_page`, `delete_page`,
`post_page` and `patch_page_settings` — fail with Unauthenticated for
every backend state and page record (public ones included) when the
caller identity is absent; `get_page` fails with Unauthenticated on an
absent identity only when the record is not public; and
Unauthenticated is distinct from the Denied outcome (403). -/
theorem absent_identity_unauthenticated (b : Backend)
    (rawPath body newId : String) (updates : PageSettingsPatch) :
    (put_page b none rawPath body).1 = some HErr.Unauthenticated ∧
    (delete_page b none rawPath).1 = some HErr.Unauthenticated ∧
    (post_page b none rawPath body newId).1 = some HErr.Unauthenticated ∧
    (patch_page_settings b none rawPath updates).1 = some HErr.Unauthenticated ∧
    (∀ pid, get_page_id b (get_page_path rawPath) = some pid →
      (b.pages pid).public = false →
      get_page b none rawPath = Except.error HErr.Unauthenticated) ∧
    HErr.Unauthenticated ≠ HErr.Forbidden := by
  refine ⟨rfl, rfl, rfl, rfl, fun pid hpid hpub => ?_, by decide⟩
  simp [get_page, hpid, hpub]

/-- Witness for C8 (amended) at concrete inputs: in `sampleBackend`,
an anonymous `put_page` on "/foo" is Unauthenticated, and an anonymous
`get_page` on the non-public "/foo" is Unauthenticated as well. -/
theorem absent_identity_unauthenticated_witness :
    (put_page sampleBackend none "/foo" "x").1 = some HErr.Unauthenticated ∧
    get_page sampleBackend none "/foo" = Except.error HErr.Unauthenticated :=
  ⟨(absent_identity_unauthenticated sampleBackend "/foo" "x" "newid"
      { publicFlag := none, users := none }).1,
    (absent_identity_unauthenticated sampleBackend "/foo" "x" "newid"
      { publicFlag := none, users := none }).2.2.2.2.1 "fooid" (by decide) (by decide)⟩

/-- `pySplit` always returns at least one chunk, like Python's split. -/
theorem pySplit_ne_nil (sep : Char) (cs : List Char) : pySplit sep cs ≠ [] := by
  cases cs with
  | nil => simp [pySplit]
  | cons c cs =>
    simp only [pySplit]
    split <;> simp

/-- A separator right after `xs` closes its last chunk exactly, so the
split of `xs ++ sep :: ys` is the split of `xs` followed by the split
of `ys`. -/
theorem pySplit_append_sep (sep : Char) (xs ys : List Char) :
    pySplit sep (xs ++ sep :: ys) = pySplit sep xs ++ pySplit sep ys := by
  induction xs with
  | nil => simp [pySplit]
  | cons c xs ih =>
    by_cases hc : c = sep
    · subst hc
      simp [pySplit, ih]
    · cases hxs : pySplit sep xs with
      | nil => exact absurd hxs (pySplit_ne_nil sep xs)
      | cons h t =>
        simp [pySplit, hc, ih, hxs]

/-- Discarding empty chunks commutes with the split around a
separator: the path elements of `xs ++ "/" ++ ys` are those of `xs`
followed by those of `ys`. -/
theorem pathElems_append_sep (xs ys : List Char) :
    pathElems (xs ++ '/' :: ys) = pathElems xs ++ pathElems ys := by
  simp [pathElems, pySplit_append_sep, List.filter_append]

/-- Claim C6: `get_page_path` is insensitive to empty segments — a
leading slash, a trailing slash, or a doubled slash anywhere leave the
resolved identity unchanged, so raw paths differing only in such
slash variation resolve to the identical identity; the resolver is a
total function that never fails, and the empty and the bare-root paths
both resolve to the empty segment sequence. -/
theorem pathElems_slash_insensitive :
    (∀ cs : List Char, pathElems ('/' :: cs) = pathElems cs) ∧
    (∀ cs : List Char, pathElems (cs ++ ['/']) = pathElems cs) ∧
    (∀ xs ys : List Char, pathElems (xs ++ '/' :: '/' :: ys) = pathElems (xs ++ '/' :: ys)) ∧
    (∀ s : String, get_page_path s = (pathElems s.data).map String.mk) ∧
    get_page_path "" = [] ∧
    get_page_path "/" = [] := by
  have head : ∀ cs : List Char, pathElems ('/' :: cs) = pathElems cs := by
    intro cs
    simp [pathElems, pySplit]
  refine ⟨head, fun cs => ?_, fun xs ys => ?_, fun s => rfl, rfl, rfl⟩
  · have : cs ++ ['/'] = cs ++ '/' :: ([] : List Char) := rfl
    rw [this, pathElems_append_sep]
    simp [pathElems, pySplit]
  · rw [pathElems_append_sep, pathElems_append_sep, head]

/-- Counterexample to claim C7 as stated: for the empty root identity
the code's organization key is the bare root name — `"/".join` over
the one-element list `[rootName]` — not `rootName + "/" + ""` as the
spec's formula demands ("MyOrg" versus "MyOrg/"). -/
theorem org_name_of_root_differs :
    org_name_of "MyOrg" [] = "MyOrg" ∧
    toOrganizationKey_spec "MyOrg" [] = "MyOrg/" ∧
    org_name_of "MyOrg" [] ≠ toOrganizationKey_spec "MyOrg" [] := by
  refine ⟨rfl, rfl, ?_⟩
  decide

/-- Claim C7 (amended): for every root name and every non-empty page
identity, the code's organization key equals
`rootName + "/" + join(segments, "/")`; for the empty root identity it
is the root name itself; and the key is a pure deterministic function
of its two inputs. -/
theorem org_name_of_formula (rootName : String) (segments : List String) :
    (segments ≠ [] →
      org_name_of rootName segments = toOrganizationKey_spec rootName segments) ∧
    org_name_of rootName [] = rootName ∧
    (∀ r2 s2, rootName = r2 → segments = s2 →
      org_name_of rootName segments = org_name_of r2 s2) := by
  refine ⟨fun hne => ?_, rfl, fun r2 s2 hr hs => by rw [hr, hs]⟩
  cases segments with
  | nil => exact absurd rfl hne
  | cons s rest => rfl

/-- Witness for C7 (amended) at concrete inputs: on the identity
`["foo"]` with root "MyOrg" the formula holds, and the empty identity
maps to the root name. -/
theorem org_name_of_formula_witness :
    org_name_of "MyOrg" ["foo"] = toOrganizationKey_spec "MyOrg" ["foo"] ∧
    org_name_of "MyOrg" [] = "MyOrg" :=
  ⟨(org_name_of_formula "MyOrg" ["foo"]).1 (by decide),
    (org_name_of_formula "MyOrg" ["foo"]).2.1⟩
